import Mathlib

/-!
Verification of the Morpheus-Generator certificate-chain validation engine.

The definitions below are a shallow embedding of the repository's validator
code:
  * `Validator.tsx` (`src/src/pages/Validator.tsx`) — the categorical
    aggregation ("Strategy A", current revision, with the WEAK status);
  * `part_000` — an earlier revision of the same categorical validator
    (embedded only where a claim depends on it, namely its device-id leak
    flagging);
  * `part_001` — the numeric-score validator ("Strategy B").

External boundaries are modelled as data, never reimplemented:
  * the XML parser is an `Except String tree` input (error = the parser threw);
  * the jsrsasign X.509 decoder is an `Option DecodedCert` per chain entry
    (`none` = `readCertPEM` threw and `parseCertificate` returned `null`);
  * JS `Date` instants are `Int` values (milliseconds since epoch); the
    decoder's compact date strings are handled separately by `parseDateParts`,
    which embeds the `parseDate` closure of the source character by character.
-/

namespace Morpheus

/-- Leading-match check on character lists: `matchesAt pat s` is true when
`s` starts with `pat`. Helper for embedding JS `String.prototype.includes`. -/
def matchesAt : List Char → List Char → Bool
  | [], _ => true
  | _ :: _, [] => false
  | a :: as, b :: bs => a == b && matchesAt as bs

/-- Substring containment on character lists (JS `includes` semantics: the
empty pattern is contained in every string). -/
def containsList (pat : List Char) : List Char → Bool
  | [] => pat.isEmpty
  | c :: rest => matchesAt pat (c :: rest) || containsList pat rest

/-- JS `s.includes(pat)`: `pat` occurs in `s` as a contiguous substring
(case-sensitive; the source lower-cases explicitly where it wants to). -/
def strContains (s pat : String) : Bool := containsList pat.toList s.toList

/-- ASCII lower-casing of one character, as JS `toLowerCase` acts on the
ASCII identifiers and distinguished-name strings this engine handles. -/
def charLower (c : Char) : Char :=
  if 'A' ≤ c ∧ c ≤ 'Z' then Char.ofNat (c.toNat + 32) else c

/-- JS `s.toLowerCase()` on ASCII content. -/
def jsLower (s : String) : String := String.mk (s.toList.map charLower)

/-- JS whitespace test for `trim` (space, tab, newline, carriage return). -/
def isWS (c : Char) : Bool := c == ' ' || c == '\t' || c == '\n' || c == '\r'

/-- JS `s.trim()`: strip leading and trailing whitespace. -/
def jsTrim (s : String) : String :=
  String.mk (((s.toList.dropWhile isWS).reverse.dropWhile isWS).reverse)

/-- Mock database of known leaked serials, `LEAK_DB` of `Validator.tsx`. -/
def LEAK_DB : List String :=
  ["2b0a09a69c59b482ddb8a21786fdd439",
   "f92009e853b6b045",
   "deadbeef",
   "0c8684c66d5c3f63c2d2494b72b82d50",
   "1e016753308a01c036070b9916296a27"]

/-- Known bad serials of the earlier revision, `LEAK_DB` of `part_000`. -/
def LEAK_DB_v1 : List String :=
  ["2b0a09a69c59b482ddb8a21786fdd439",
   "f92009e853b6b045",
   "deadbeef"]

/-- Chain role of one certificate, the `type` field of `CertDetail`. -/
inductive CertType
  | ROOT
  | INTERMEDIATE
  | ENDENTITY
deriving DecidableEq, Repr

/-- The `overallStatus` enumeration of the `ValidationReport` interface. -/
inductive Status
  | VALID
  | REVOKED
  | EXPIRED
  | INVALID
  | WEAK
deriving DecidableEq, Repr

/-- Output contract of the X.509 decoder boundary for one successfully read
PEM certificate: the fields `parseCertificate` extracts from the jsrsasign
`X509` object. `notBefore`/`notAfter` carry the epoch instant of the already
constructed JS `Date` (the textual date format itself is treated by
`parseDateParts` below). -/
structure DecodedCert where
  serial : String
  subject : String
  issuer : String
  notBefore : Int
  notAfter : Int
deriving DecidableEq, Repr

/-- One row of the decoded-certificate table, interface `CertDetail` of
`Validator.tsx` (UI-only fields `sigAlgo`, `fingerprint`, the display-
simplified subject/issuer and `isValid`, a constant `true`, are omitted;
they feed no decision logic). -/
structure CertDetail where
  index : Nat
  type : CertType
  serial : String
  subject : String
  issuer : String
  notBefore : Int
  notAfter : Int
  isExpired : Bool
  isRevoked : Bool
  isGoogleRoot : Bool
deriving DecidableEq, Repr

/-- The role-assignment if-chain of `parseCertificate` (`Validator.tsx`,
lines 144-149): start at INTERMEDIATE; a Google-issued self-signed
certificate is ROOT; else position 0 is END-ENTITY; else the last position
is ROOT. -/
def certRole (isGoogleRoot : Bool) (issuer subject : String) (i n : Nat) : CertType :=
  if isGoogleRoot && issuer == subject then .ROOT
  else if i == 0 then .ENDENTITY
  else if i == n - 1 then .ROOT
  else .INTERMEDIATE

/-- The pure part of `parseCertificate` (`Validator.tsx`): given the decoder
output `d`, the 0-based index `i` and the chain length `n`, build the
`CertDetail` row. `now` is the evaluation instant (`new Date()`). -/
def parseCertDetail (now : Int) (d : DecodedCert) (i n : Nat) : CertDetail :=
  let isExpired := decide (d.notAfter < now)
  let isRevoked := LEAK_DB.any (fun bad => strContains (jsLower d.serial) bad)
  let isGoogleRoot := strContains (jsLower d.issuer) "google"
  { index := i + 1
    type := certRole isGoogleRoot d.issuer d.subject i n
    serial := d.serial
    subject := d.subject
    issuer := d.issuer
    notBefore := d.notBefore
    notAfter := d.notAfter
    isExpired := isExpired
    isRevoked := isRevoked
    isGoogleRoot := isGoogleRoot }

/-- Shape of the `CertificateChain.Certificate` field in the parsed tree:
fast-xml-parser yields a scalar for a single certificate and an array for
several. Each entry is the decode outcome of one PEM string (`none`:
`readCertPEM` threw, `parseCertificate` returned `null`). -/
inductive CertField
  | single (c : Option DecodedCert)
  | array (cs : List (Option DecodedCert))
deriving DecidableEq, Repr

/-- The `certsRaw` normalization (`Validator.tsx`, lines 210-212): scalar
becomes a one-element list, absent field becomes the empty list. -/
def certsRaw : Option CertField → List (Option DecodedCert)
  | none => []
  | some (.single c) => [c]
  | some (.array cs) => cs

/-- The keybox node of the parsed tree as `validateXML` reads it:
`kb.KeyAlgorithm`, `kb.DeviceID` (`none` = absent/falsy, defaulted to
"Unknown") and `kb.CertificateChain?.Certificate` (`none` = chain container
or certificate field absent/falsy). -/
structure KeyboxTree where
  keyAlgorithm : Option String
  deviceID : Option String
  certChain : Option CertField
deriving DecidableEq, Repr

/-- The decoded certificate rows in original chain-supplied order: the
`certs` array built by the `certsRaw.forEach` loop of `validateXML`
(decode failures are skipped, not inserted). -/
def chainDetails (now : Int) (kb : KeyboxTree) : List CertDetail :=
  let raw := certsRaw kb.certChain
  raw.enum.filterMap (fun p => p.2.map (fun d => parseCertDetail now d p.1 raw.length))

/-- Display reordering of `validateXML`: the stable JS sort of `certs` by
`typeOrder` (ROOT 0, INTERMEDIATE 1, END-ENTITY 2). A stable sort on a
three-valued key is exactly the concatenation of the three filtered groups
in original relative order. -/
def sortByType (certs : List CertDetail) : List CertDetail :=
  certs.filter (fun c => c.type == CertType.ROOT)
    ++ certs.filter (fun c => c.type == CertType.INTERMEDIATE)
    ++ certs.filter (fun c => c.type == CertType.ENDENTITY)

/-- Milliseconds per day, the unit conversion inside date-fns
`differenceInDays`. -/
def msPerDay : Int := 86400000

/-- date-fns `differenceInDays(a, b)`: the signed number of full days from
`b` to `a`, truncated toward zero (JS instants as epoch milliseconds). -/
def differenceInDays (a b : Int) : Int := Int.tdiv (a - b) msPerDay

/-- `leafCert` of `validateXML`: `certs.find(c => c.type === 'END-ENTITY')
|| certs[0]` over the original-order list. -/
def findLeaf (certs : List CertDetail) : Option CertDetail :=
  (certs.find? (fun c => c.type == CertType.ENDENTITY)).orElse (fun _ => certs.head?)

/-- `rootCert` of `validateXML`: `certs.find(c => c.type === 'ROOT') ||
certs[certs.length - 1]`. -/
def findRoot (certs : List CertDetail) : Option CertDetail :=
  (certs.find? (fun c => c.type == CertType.ROOT)).orElse (fun _ => certs.getLast?)

/-- The display-date boundary (date-fns `format(date, 'MMM dd, yyyy')`),
kept abstract up to its epoch argument; its exact text is display-only and
never equals the sentinel "Unknown". -/
def formatDisplayDate (d : Int) : String := "day " ++ toString d

/-- The `ValidationReport` of `Validator.tsx` (UI bookkeeping fields
`fileName`, `seenCount`, `isValidStructure` — a constant `true` on this
path — and the log array are omitted; no claim touches them). -/
structure ReportA where
  algorithm : String
  deviceID : String
  certificates : List CertDetail
  hasGoogleRoot : Bool
  isStrongIntegrityReady : Bool
  isLeaked : Bool
  overallStatus : Status
  expiresOn : String
  daysRemaining : Int
deriving DecidableEq, Repr

/-- The device-id half of the leak check (`Validator.tsx`, line 238):
`LEAK_DB.some(s => deviceID.includes(s))` — note: case-sensitive, on the
already-defaulted device id. -/
def deviceLeaked (deviceID : String) : Bool :=
  LEAK_DB.any (fun s => strContains deviceID s)

/-- The status precedence chain of `validateXML` (`Validator.tsx`, lines
244-247). -/
def overallStatusA (isLeaked hasExpiredCerts : Bool) (algo : String)
    (hasGoogleRoot : Bool) : Status :=
  if isLeaked then .REVOKED
  else if hasExpiredCerts then .EXPIRED
  else if algo != "ECDSA" || !hasGoogleRoot then .WEAK
  else .VALID

/-- The report construction of `validateXML` (`Validator.tsx`, lines
198-267) on a present keybox node. -/
def buildReportA (now : Int) (kb : KeyboxTree) : ReportA :=
  let algo := kb.keyAlgorithm.getD "Unknown"
  let deviceID := kb.deviceID.getD "Unknown"
  let certs := chainDetails now kb
  let sortedCerts := sortByType certs
  let leafCert := findLeaf certs
  let rootCert := findRoot certs
  let hasRevokedCerts := certs.any (fun c => c.isRevoked)
  let hasExpiredCerts := certs.any (fun c => c.isExpired)
  let isLeaked := hasRevokedCerts || deviceLeaked deviceID
  let hasGoogleRoot := (rootCert.map (fun c => c.isGoogleRoot)).getD false
  let status := overallStatusA isLeaked hasExpiredCerts algo hasGoogleRoot
  { algorithm := algo
    deviceID := deviceID
    certificates := sortedCerts
    hasGoogleRoot := hasGoogleRoot
    isStrongIntegrityReady := status == Status.VALID
    isLeaked := isLeaked
    overallStatus := status
    expiresOn := (leafCert.map (fun c => formatDisplayDate c.notAfter)).getD "Unknown"
    daysRemaining := (leafCert.map (fun c => differenceInDays c.notAfter now)).getD 0 }

/-- Localization key of the structural error thrown when
`jsonObj.AndroidAttestation?.Keybox` is absent (`t('errors.missing_keybox')`;
the localized text is a UI boundary, the key stands in for it). -/
def missing_keybox_msg : String := "errors.missing_keybox"

/-- `validateXML` of `Validator.tsx` end to end. The input is the outcome of
the external `XMLParser.parse` call: `Except.error msg` when the parser
threw, otherwise the (possibly absent) keybox node. An `Except.error` result
models the catch-all `alert("Validation Failed: " + message)` path on which
`setReport` is never called — no report is produced. -/
def validateA (now : Int) : Except String (Option KeyboxTree) → Except String ReportA
  | .error msg => .error ("Validation Failed: " ++ msg)
  | .ok none => .error ("Validation Failed: " ++ missing_keybox_msg)
  | .ok (some kb) => .ok (buildReportA now kb)

/-- The `isLeaked` computation of the earlier revision (`part_000`, line
196): revoked certificates, or the device id (defaulted to the empty string,
lower-cased) containing "android" or "test". -/
def isLeaked_v1 (hasRevokedCerts : Bool) (deviceID : Option String) : Bool :=
  hasRevokedCerts ||
    ["android", "test"].any (fun s => strContains (jsLower (deviceID.getD "")) s)

/-- The keybox node as the Strategy B `validateXML` (`part_001`) reads it:
`kb.KeyAlgorithm`, `kb.DeviceID`, `kb.PrivateKey` (`none` = absent/falsy)
and `kb.CertificateChain`/`.Certificate` (`none` = either level absent). -/
structure KeyboxB where
  keyAlgorithm : Option String
  deviceID : Option String
  privateKey : Option String
  certChain : Option CertField
deriving DecidableEq, Repr

/-- The parsed tree as Strategy B reads it: outer `none` =
`AndroidAttestation` absent, inner `none` = `Keybox` absent. -/
structure TreeB where
  androidAttestation : Option (Option KeyboxB)
deriving DecidableEq, Repr

/-- `revocationRisk` band of the Strategy B result. -/
inductive Risk
  | LOW
  | MEDIUM
  | HIGH
deriving DecidableEq, Repr

/-- The `ValidationResult` of `part_001` (the `info` key/value map and the
constant `expiryStatus`, which the source initializes to VALID and never
reassigns, are display-only and omitted). -/
structure ResultB where
  valid : Bool
  score : Int
  errors : List String
  warnings : List String
  revocationRisk : Risk
  usageEstimate : String
  strongIntegrityReady : Bool
deriving DecidableEq, Repr

/-- Mutable state threaded through the sequential checks of the Strategy B
`validateXML`: the running score, the error and warning arrays (append-only,
in evaluation order) and the `strongIntegrityReady` flag. -/
structure BState where
  score : Int
  errors : List String
  warnings : List String
  sir : Bool
deriving DecidableEq, Repr

/-- The known generic placeholder device ids of `part_001` (exact-equality
membership via `['123456',...].includes(...)`). -/
def placeholderIDs : List String := ["123456", "deadbeef", "pixel5", "android"]

/-- Strategy B algorithm check (`part_001`, lines 67-77): missing algorithm
−10; non-ECDSA/non-RSA algorithm −5 and not strong-integrity-ready. -/
def stepAlgo (kb : KeyboxB) (st : BState) : BState :=
  match kb.keyAlgorithm with
  | none =>
    { st with errors := st.errors ++ ["errors.missing_algo"], score := st.score - 10 }
  | some a =>
    if a != "ECDSA" && a != "RSA" then
      { st with
        warnings := st.warnings ++ ["Algorithm is non-standard. Play Integrity may reject it."]
        score := st.score - 5
        sir := false }
    else st

/-- Strategy B device-id check (`part_001`, lines 79-93): missing id −20;
shorter than 8 characters −5 (warning only); lower-cased id equal to a known
generic placeholder −30 and not strong-integrity-ready. -/
def stepDevice (kb : KeyboxB) (st : BState) : BState :=
  match kb.deviceID with
  | none =>
    { st with errors := st.errors ++ ["errors.missing_device_id"], score := st.score - 20 }
  | some d =>
    let st1 :=
      if d.length < 8 then
        { st with
          warnings := st.warnings ++ ["Device ID is unusually short. Potential generic ID."]
          score := st.score - 5 }
      else st
    if placeholderIDs.contains (jsLower d) then
      { st1 with
        errors := st1.errors ++ ["Device ID is a known generic placeholder. High ban risk."]
        score := st1.score - 30
        sir := false }
    else st1

/-- Strategy B private-key check (`part_001`, lines 95-106): missing key −20
and not ready; trimmed key shorter than 100 characters −10 and not ready. -/
def stepKey (kb : KeyboxB) (st : BState) : BState :=
  match kb.privateKey with
  | none =>
    { st with
      errors := st.errors ++ ["errors.missing_priv_key"]
      score := st.score - 20
      sir := false }
  | some pkRaw =>
    let pk := jsTrim pkRaw
    if pk.length < 100 then
      { st with
        errors := st.errors ++ ["errors.key_length"]
        score := st.score - 10
        sir := false }
    else st

/-- One iteration of the Strategy B `certs.forEach` loop (`part_001`, lines
127-138): a certificate that fails to decode costs −5 and a warning; a
decoded certificate only feeds the display-only `info` map. -/
def certWarnStep (acc : BState) (p : Nat × Option DecodedCert) : BState :=
  match p.2 with
  | some _ => acc
  | none =>
    { acc with
      warnings := acc.warnings ++
        ["Certificate " ++ toString (p.1 + 1) ++ " could not be parsed. Format may be invalid."]
      score := acc.score - 5 }

/-- Strategy B certificate-chain check (`part_001`, lines 110-138): chain
field missing entirely −20 and not ready; else chain shorter than 3
certificates −10 and not ready, and each certificate that fails to decode
−5 with a warning. -/
def stepChain (kb : KeyboxB) (st : BState) : BState :=
  match kb.certChain with
  | none =>
    { st with
      errors := st.errors ++ ["errors.cert_chain_empty"]
      score := st.score - 20
      sir := false }
  | some cf =>
    let certs := certsRaw (some cf)
    let st1 :=
      if certs.length < 3 then
        { st with
          warnings := st.warnings ++
            ["Certificate chain is too short (Recommend 3+ for Strong Integrity)."]
          score := st.score - 10
          sir := false }
      else st
    certs.enum.foldl certWarnStep st1

/-- The result construction of the Strategy B `validateXML` on a present
keybox node (`part_001`, lines 65-160): sequential checks, clamp to 0, risk
banding and the usage estimate from device-id character entropy. -/
def buildResultB (kb : KeyboxB) : ResultB :=
  let st := stepChain kb (stepKey kb (stepDevice kb (stepAlgo kb ⟨100, [], [], true⟩)))
  let revocationRisk : Risk :=
    if st.score < 60 then .HIGH else if st.score < 85 then .MEDIUM else .LOW
  let entropy : Nat :=
    match kb.deviceID with
    | some d => d.toList.dedup.length
    | none => 0
  let usageEstimate :=
    if entropy < 4 then "High Global Usage (Generic ID)"
    else if revocationRisk == Risk.HIGH then "Flagged / Leaked"
    else "Unique (Estimated)"
  { valid := st.errors.isEmpty
    score := max 0 st.score
    errors := st.errors
    warnings := st.warnings
    revocationRisk := revocationRisk
    usageEstimate := usageEstimate
    strongIntegrityReady := st.sir }

/-- The Strategy B `validateXML` end to end (`part_001`, lines 42-176). A
thrown XML parse is caught and converted into a sentinel result (score 0,
`valid` false, the parser's message inside `errors`) — `setResult` IS called
on that path. When `AndroidAttestation` or `Keybox` is absent the source
only mutates its locals and never reaches the `setResult` call, so no result
is produced (`none`). -/
def validateB : Except String TreeB → Option ResultB
  | .error msg =>
    some
      { valid := false
        score := 0
        errors := ["XML Syntax Error: " ++ msg]
        warnings := []
        revocationRisk := .HIGH
        usageEstimate := "Unknown"
        strongIntegrityReady := false }
  | .ok t =>
    match t.androidAttestation with
    | none => none
    | some none => none
    | some (some kb) => some (buildResultB kb)

/-- JS `str.substring(a, b)` on a character list (`a ≤ b` in all source
uses). -/
def jsSub (s : List Char) (a b : Nat) : List Char := (s.drop a).take (b - a)

/-- The `parseDate` closure of `parseCertificate` (`Validator.tsx`, lines
122-127), at the level of the extracted year/month/day strings: each field
branches on the raw string's length, exactly as in the source. The
subsequent `new Date(...)` construction is the external Date boundary. -/
def parseDateParts (str : List Char) : List Char × List Char × List Char :=
  let year := if str.length == 13 then ['2', '0'] ++ jsSub str 0 2 else jsSub str 0 4
  let month := if str.length == 13 then jsSub str 2 4 else jsSub str 4 6
  let day := if str.length == 13 then jsSub str 4 6 else jsSub str 6 8
  (year, month, day)

/-- The date-field rule as the spec sentence states it: a length-13 string
has a two-digit year with a literal "20" century, month at characters 2-3,
day at characters 4-5; any other length has the literal four-digit year,
month at characters 4-5, day at characters 6-7. No other century inference. -/
def specDateParts (str : List Char) : List Char × List Char × List Char :=
  if str.length = 13 then
    (['2', '0'] ++ str.take 2, (str.drop 2).take 2, (str.drop 4).take 2)
  else
    (str.take 4, (str.drop 4).take 2, (str.drop 6).take 2)

/-- The §4.4 reference rule list, written from the spec's words: (1)
self-signed and trusted-root marker in the issuer → ROOT regardless of
position; (2) else position 0 → END_ENTITY; (3) else the last position
(`position = total - 1`) → ROOT; (4) else INTERMEDIATE. -/
def specChainRole (selfSigned googleIssuer : Bool) (i n : Nat) : CertType :=
  if selfSigned && googleIssuer then .ROOT
  else if i == 0 then .ENDENTITY
  else if i + 1 == n then .ROOT
  else .INTERMEDIATE

/-- A decoded Google self-signed root certificate (clean serial, unexpired
at instant 0). -/
def googleRootCert : DecodedCert :=
  { serial := "0a1b2c"
    subject := "CN=Google Attestation Root"
    issuer := "CN=Google Attestation Root"
    notBefore := 0
    notAfter := 100 }

/-- An RSA keybox with a trusted Google root and a clean device id. -/
def kb1W : KeyboxTree :=
  { keyAlgorithm := some "RSA"
    deviceID := some "cleandev99x"
    certChain := some (.array [some googleRootCert]) }

/-- A decoded non-self-signed certificate with distinct subject and issuer. -/
def dW2 : DecodedCert :=
  { serial := "serial01", subject := "Subject A", issuer := "Issuer B"
    notBefore := 0, notAfter := 10 }

/-- An ECDSA keybox with a trusted Google root and a clean device id. -/
def kb3W : KeyboxTree :=
  { keyAlgorithm := some "ECDSA"
    deviceID := some "cleandev88"
    certChain := some (.array [some googleRootCert]) }

/-- An arbitrary well-formed keybox node (all fields absent). -/
def kb5W : KeyboxTree := { keyAlgorithm := none, deviceID := none, certChain := none }

/-- A 120-character private-key stand-in with no surrounding whitespace. -/
def pk120 : String := String.mk (List.replicate 120 'k')

/-- A Strategy B keybox whose certificate-chain field is missing entirely
while every other field is present and well-formed (ECDSA algorithm, a
12-character non-placeholder device id, a 120-character key). -/
def kbC6 : KeyboxB :=
  { keyAlgorithm := some "ECDSA"
    deviceID := some "gooddevice99"
    privateKey := some pk120
    certChain := none }

/-- A Strategy A keybox whose device id is "android_test_device". -/
def kb7C : KeyboxTree :=
  { keyAlgorithm := some "ECDSA"
    deviceID := some "android_test_device"
    certChain := none }

/-- A decoded end-entity certificate (distinct subject/issuer, no Google
marker). -/
def d8 : DecodedCert :=
  { serial := "aa11", subject := "CN=Leaf Device", issuer := "CN=Intermediate CA"
    notBefore := 0, notAfter := 259200000 }

/-- A keybox with a one-certificate chain around `d8`. -/
def kb8W : KeyboxTree :=
  { keyAlgorithm := some "ECDSA"
    deviceID := some "devdevdev"
    certChain := some (.array [some d8]) }

/-- The `CertDetail` row `d8` decodes to at instant 0 in a length-1 chain. -/
def c8 : CertDetail := parseCertDetail 0 d8 0 1

/-- A keybox node with every field absent (empty chain after
normalization). -/
def kb10W : KeyboxTree := { keyAlgorithm := none, deviceID := none, certChain := none }

/-! Helper lemmas shared by the claim theorems. -/

/-- Membership is invariant under the ROOT-first display reordering. -/
lemma mem_sortByType {x : CertDetail} {l : List CertDetail} :
    x ∈ sortByType l ↔ x ∈ l := by
  unfold sortByType
  simp only [List.mem_append, List.mem_filter]
  constructor
  · rintro ((⟨h, _⟩ | ⟨h, _⟩) | ⟨h, _⟩) <;> exact h
  · intro h
    cases ht : x.type
    · exact Or.inl (Or.inl ⟨h, rfl⟩)
    · exact Or.inl (Or.inr ⟨h, rfl⟩)
    · exact Or.inr ⟨h, rfl⟩

/-- `List.any` is invariant under the ROOT-first display reordering. -/
lemma any_sortByType (l : List CertDetail) (p : CertDetail → Bool) :
    (sortByType l).any p = l.any p := by
  cases hA : (sortByType l).any p <;> cases hB : l.any p <;> try rfl
  · exfalso
    rw [List.any_eq_true] at hB
    obtain ⟨x, hx, hpx⟩ := hB
    have h : (sortByType l).any p = true :=
      List.any_eq_true.mpr ⟨x, mem_sortByType.mpr hx, hpx⟩
    rw [hA] at h
    exact Bool.false_ne_true h
  · exfalso
    rw [List.any_eq_true] at hA
    obtain ⟨x, hx, hpx⟩ := hA
    have h : l.any p = true := List.any_eq_true.mpr ⟨x, mem_sortByType.mp hx, hpx⟩
    rw [hB] at h
    exact Bool.false_ne_true h

/-- For a non-zero index, "last position" reads the same with truncated
subtraction (`i == n - 1`) and with addition (`i + 1 == n`). -/
lemma beq_last (i n : Nat) (h : ¬ i = 0) : (i == n - 1) = (i + 1 == n) := by
  cases hb : (i + 1 == n) <;> cases hb2 : (i == n - 1) <;> try rfl
  · exfalso
    rw [beq_iff_eq] at hb2
    rw [beq_eq_false_iff_ne] at hb
    omega
  · exfalso
    rw [beq_iff_eq] at hb
    rw [beq_eq_false_iff_ne] at hb2
    omega

/-- A produced Strategy A report comes from a present keybox node. -/
lemma validateA_ok {now : Int} {inp : Except String (Option KeyboxTree)} {r : ReportA}
    (h : validateA now inp = Except.ok r) :
    ∃ kb, inp = Except.ok (some kb) ∧ r = buildReportA now kb := by
  rcases inp with msg | okb
  · simp [validateA] at h
  · rcases okb with _ | kb
    · simp [validateA] at h
    · exact ⟨kb, rfl, by simpa [validateA] using h.symm⟩

/-- The overall status of a built report, in terms of the report's own
fields and the spec's precedence chain. -/
lemma statusA_eq (now : Int) (kb : KeyboxTree) :
    (buildReportA now kb).overallStatus =
      (if (buildReportA now kb).isLeaked = true then Status.REVOKED
       else if (buildReportA now kb).certificates.any (fun c => c.isExpired) = true then
         Status.EXPIRED
       else if (buildReportA now kb).algorithm ≠ "ECDSA" ∨
           (buildReportA now kb).hasGoogleRoot = false then Status.WEAK
       else Status.VALID) := by
  have hc : (buildReportA now kb).certificates = sortByType (chainDetails now kb) := rfl
  rw [hc, any_sortByType]
  have hstat : (buildReportA now kb).overallStatus =
      overallStatusA (buildReportA now kb).isLeaked
        ((chainDetails now kb).any (fun c => c.isExpired))
        (buildReportA now kb).algorithm (buildReportA now kb).hasGoogleRoot := rfl
  rw [hstat]
  generalize (buildReportA now kb).isLeaked = L
  generalize ((chainDetails now kb).any (fun c => c.isExpired)) = E
  generalize (buildReportA now kb).algorithm = algo
  generalize (buildReportA now kb).hasGoogleRoot = G
  unfold overallStatusA
  cases L <;> cases E <;> cases G <;> by_cases ha : algo = "ECDSA" <;>
    simp [ha, bne_iff_ne]

/-- No branch of the status chain yields INVALID. -/
lemma statusA_ne_invalid (L E : Bool) (algo : String) (G : Bool) :
    overallStatusA L E algo G ≠ Status.INVALID := by
  unfold overallStatusA
  split_ifs <;> simp

/-! The claim theorems. -/

/-- C1. Strategy A status aggregation follows the first-match precedence
chain isLeaked → REVOKED, expired certificate → EXPIRED, non-ECDSA or no
trusted root → WEAK, else VALID; in particular an RSA keybox with a trusted
Google root and no leak or expiry yields WEAK. -/
theorem claim1_statusA :
    (∀ (now : Int) (inp : Except String (Option KeyboxTree)) (r : ReportA),
      validateA now inp = Except.ok r →
      r.overallStatus =
        (if r.isLeaked = true then Status.REVOKED
         else if r.certificates.any (fun c => c.isExpired) = true then Status.EXPIRED
         else if r.algorithm ≠ "ECDSA" ∨ r.hasGoogleRoot = false then Status.WEAK
         else Status.VALID)) ∧
    (∀ (now : Int) (inp : Except String (Option KeyboxTree)) (r : ReportA),
      validateA now inp = Except.ok r →
      r.algorithm = "RSA" → r.hasGoogleRoot = true → r.isLeaked = false →
      r.certificates.any (fun c => c.isExpired) = false →
      r.overallStatus = Status.WEAK) := by
  constructor
  · intro now inp r h
    obtain ⟨kb, -, hr⟩ := validateA_ok h
    subst hr
    exact statusA_eq now kb
  · intro now inp r h ha hg hl he
    obtain ⟨kb, -, hr⟩ := validateA_ok h
    subst hr
    rw [statusA_eq now kb, ha, hg, hl, he]
    simp

/-- Witness for C1: the concrete RSA keybox `kb1W` with a Google root
yields WEAK. -/
theorem claim1_witness : (buildReportA 0 kb1W).overallStatus = Status.WEAK :=
  claim1_statusA.2 0 (Except.ok (some kb1W)) (buildReportA 0 kb1W) rfl
    (by decide) (by decide) (by decide) (by decide)

/-- C2. The chain role assigned by `parseCertificate` equals the reference
rule list (self-signed Google issuer → ROOT; else position 0 → END_ENTITY;
else last position → ROOT; else INTERMEDIATE), and in a chain of length 1 a
certificate that does not match the self-signed-Google rule is END_ENTITY,
not ROOT. -/
theorem claim2_chain_role (now : Int) (d : DecodedCert) (i n : Nat) :
    (parseCertDetail now d i n).type =
      specChainRole (d.issuer == d.subject) (strContains (jsLower d.issuer) "google") i n ∧
    (n = 1 → i = 0 →
      ((d.issuer == d.subject) && strContains (jsLower d.issuer) "google") = false →
      (parseCertDetail now d i n).type = CertType.ENDENTITY) := by
  have htype : (parseCertDetail now d i n).type =
      certRole (strContains (jsLower d.issuer) "google") d.issuer d.subject i n := rfl
  have hmain : (parseCertDetail now d i n).type =
      specChainRole (d.issuer == d.subject) (strContains (jsLower d.issuer) "google") i n := by
    rw [htype]
    unfold certRole specChainRole
    by_cases hs : (d.issuer == d.subject) = true <;>
    by_cases hg : strContains (jsLower d.issuer) "google" = true <;>
    by_cases hi : (i == 0) = true <;>
      simp only [hs, hg, hi, Bool.and_true, Bool.and_false, Bool.true_and, Bool.false_and,
        Bool.and_self, if_true, if_false, Bool.false_eq_true, ite_false, ite_true]
    all_goals first
      | rfl
      | (rw [beq_last i n (by intro h0; rw [h0] at hi; exact hi rfl)])
  refine ⟨hmain, ?_⟩
  intro hn hi hrule
  rw [hmain, hn, hi]
  unfold specChainRole
  rw [hrule]
  rfl

/-- Witness for C2: the non-self-signed certificate `dW2` alone in a chain
of length 1 is classified END_ENTITY. -/
theorem claim2_witness : (parseCertDetail 0 dW2 0 1).type = CertType.ENDENTITY :=
  (claim2_chain_role 0 dW2 0 1).2 rfl rfl (by decide)

/-- C3. In Strategy A, a produced report is strong-integrity-ready exactly
when its overall status is VALID. -/
theorem claim3_sir_iff_valid (now : Int) (inp : Except String (Option KeyboxTree))
    (r : ReportA) (h : validateA now inp = Except.ok r) :
    r.isStrongIntegrityReady = true ↔ r.overallStatus = Status.VALID := by
  obtain ⟨kb, -, hr⟩ := validateA_ok h
  subst hr
  have hb : (buildReportA now kb).isStrongIntegrityReady =
      ((buildReportA now kb).overallStatus == Status.VALID) := rfl
  rw [hb]
  exact beq_iff_eq

/-- Witness for C3: applied to the concrete ECDSA keybox `kb3W`, whose
report is VALID. -/
theorem claim3_witness : (buildReportA 0 kb3W).isStrongIntegrityReady = true :=
  (claim3_sir_iff_valid 0 (Except.ok (some kb3W)) (buildReportA 0 kb3W) rfl).mpr (by decide)

/-- C9. The decoder date-string fields extracted by `parseDate` follow the
spec's length rule exactly: length 13 → "20"-prefixed two-digit year, month
at characters 2-3, day at 4-5; otherwise the literal four-digit year, month
at 4-5, day at 6-7. -/
theorem claim9_date_fields (s : List Char) : parseDateParts s = specDateParts s := by
  unfold parseDateParts specDateParts jsSub
  by_cases h : s.length = 13 <;> simp [h]

/-- C4 counterexample: on unparseable input Strategy B does produce a
result (the sentinel with score 0 carrying the parser's message), so the
claim that no partial result is returned in both strategies is false. -/
theorem claim4_cex :
    validateB (Except.error "Invalid XML") ≠ none ∧
    (validateB (Except.error "Invalid XML")).map (fun r => r.score) = some 0 ∧
    (validateB (Except.error "Invalid XML")).map (fun r => r.errors) =
      some ["XML Syntax Error: Invalid XML"] := by
  refine ⟨?_, rfl, rfl⟩
  simp [validateB]

/-- C4 amended. On input the XML parser cannot turn into a tree, Strategy A
produces no report and surfaces the parser's message in the fatal alert,
while Strategy B produces a sentinel result (valid = false, score = 0, not
strong-integrity-ready) whose single error carries the parser's message. -/
theorem claim4_amended (now : Int) (msg : String) :
    validateA now (Except.error msg) = Except.error ("Validation Failed: " ++ msg) ∧
    validateB (Except.error msg) =
      some
        { valid := false
          score := 0
          errors := ["XML Syntax Error: " ++ msg]
          warnings := []
          revocationRisk := Risk.HIGH
          usageEstimate := "Unknown"
          strongIntegrityReady := false } :=
  ⟨rfl, rfl⟩

/-- C5 counterexample: with the keybox container absent the categorical
engine produces no report at all — the structural error is caught as a
fatal validation failure — rather than a report with status INVALID. -/
theorem claim5_cex :
    validateA 0 (Except.ok none) =
      Except.error ("Validation Failed: " ++ missing_keybox_msg) ∧
    (validateA 0 (Except.ok none)).toOption = none :=
  ⟨rfl, rfl⟩

/-- C5 amended. When the attestation or keybox container is absent the
categorical engine produces no report (the thrown structural error becomes
the fatal alert); no produced report ever carries status INVALID. -/
theorem claim5_amended (now : Int) :
    (validateA now (Except.ok none)).toOption = none ∧
    ∀ (inp : Except String (Option KeyboxTree)) (r : ReportA),
      validateA now inp = Except.ok r → r.overallStatus ≠ Status.INVALID := by
  refine ⟨rfl, ?_⟩
  intro inp r h
  obtain ⟨kb, -, hr⟩ := validateA_ok h
  subst hr
  exact statusA_ne_invalid _ _ _ _

/-- Witness for C5 amended: at instant 0 with the concrete keybox `kb5W`. -/
theorem claim5_witness :
    (validateA 0 (Except.ok none)).toOption = none ∧
    (buildReportA 0 kb5W).overallStatus ≠ Status.INVALID :=
  ⟨(claim5_amended 0).1,
   (claim5_amended 0).2 (Except.ok (some kb5W)) (buildReportA 0 kb5W) rfl⟩

/-- The per-certificate warning step never increases the score. -/
lemma certWarnStep_score_le (st : BState) (p : Nat × Option DecodedCert) :
    (certWarnStep st p).score ≤ st.score := by
  unfold certWarnStep
  rcases p with ⟨i, _ | c⟩ <;> dsimp <;> omega

/-- Folding the per-certificate warning step never increases the score. -/
lemma foldl_certWarnStep_score_le (l : List (Nat × Option DecodedCert)) (st : BState) :
    (l.foldl certWarnStep st).score ≤ st.score := by
  induction l generalizing st with
  | nil => simp
  | cons x xs ih =>
    calc (List.foldl certWarnStep st (x :: xs)).score
        = (List.foldl certWarnStep (certWarnStep st x) xs).score := rfl
      _ ≤ (certWarnStep st x).score := ih _
      _ ≤ st.score := certWarnStep_score_le st x

/-- The algorithm check never increases the score. -/
lemma stepAlgo_score_le (kb : KeyboxB) (st : BState) : (stepAlgo kb st).score ≤ st.score := by
  obtain ⟨alg, dev, pk, cc⟩ := kb
  cases alg with
  | none => dsimp only [stepAlgo]; omega
  | some a =>
    dsimp only [stepAlgo]
    split <;> first | omega | (dsimp only; omega)

/-- The device-id check never increases the score. -/
lemma stepDevice_score_le (kb : KeyboxB) (st : BState) :
    (stepDevice kb st).score ≤ st.score := by
  obtain ⟨alg, dev, pk, cc⟩ := kb
  cases dev with
  | none => dsimp only [stepDevice]; omega
  | some d =>
    dsimp only [stepDevice]
    split <;> split <;> first | omega | (dsimp only; omega)

/-- The private-key check never increases the score. -/
lemma stepKey_score_le (kb : KeyboxB) (st : BState) : (stepKey kb st).score ≤ st.score := by
  obtain ⟨alg, dev, pk, cc⟩ := kb
  cases pk with
  | none => dsimp only [stepKey]; omega
  | some pkRaw =>
    dsimp only [stepKey]
    split <;> first | omega | (dsimp only; omega)

set_option maxRecDepth 4096 in
/-- C6 counterexample: the concrete keybox `kbC6` (well-formed except for a
missing certificate chain) scores 80 under Strategy B — more than the
claimed bound of 50 — though it is indeed not strong-integrity-ready. -/
theorem claim6_cex :
    validateB (Except.ok { androidAttestation := some (some kbC6) }) =
      some (buildResultB kbC6) ∧
    (buildResultB kbC6).score = 80 ∧
    ¬ (buildResultB kbC6).score ≤ 50 ∧
    (buildResultB kbC6).strongIntegrityReady = false := by
  refine ⟨rfl, ?_, ?_, ?_⟩ <;> decide

/-- C6 amended. A Strategy B keybox whose certificate-chain field is
missing entirely scores at most 80 (the chain penalty is −20, so with all
other fields well-formed the score is exactly 80, not ≤ 50) and is not
strong-integrity-ready. -/
theorem claim6_amended (kb : KeyboxB) (h : kb.certChain = none) :
    (buildResultB kb).score ≤ 80 ∧ (buildResultB kb).strongIntegrityReady = false := by
  have h100 : (stepKey kb (stepDevice kb (stepAlgo kb ⟨100, [], [], true⟩))).score ≤ 100 :=
    calc (stepKey kb (stepDevice kb (stepAlgo kb ⟨100, [], [], true⟩))).score
        ≤ (stepDevice kb (stepAlgo kb ⟨100, [], [], true⟩)).score := stepKey_score_le _ _
      _ ≤ (stepAlgo kb ⟨100, [], [], true⟩).score := stepDevice_score_le _ _
      _ ≤ (100 : Int) := stepAlgo_score_le _ _
  have hchain : stepChain kb (stepKey kb (stepDevice kb (stepAlgo kb ⟨100, [], [], true⟩))) =
      { stepKey kb (stepDevice kb (stepAlgo kb ⟨100, [], [], true⟩)) with
        errors := (stepKey kb (stepDevice kb (stepAlgo kb ⟨100, [], [], true⟩))).errors ++
          ["errors.cert_chain_empty"]
        score := (stepKey kb (stepDevice kb (stepAlgo kb ⟨100, [], [], true⟩))).score - 20
        sir := false } := by
    unfold stepChain
    rw [h]
  constructor
  · have hs : (buildResultB kb).score =
        max 0 (stepChain kb
          (stepKey kb (stepDevice kb (stepAlgo kb ⟨100, [], [], true⟩)))).score := rfl
    rw [hs, hchain]
    exact max_le (by norm_num) (by dsimp; omega)
  · have hsir : (buildResultB kb).strongIntegrityReady =
        (stepChain kb (stepKey kb (stepDevice kb (stepAlgo kb ⟨100, [], [], true⟩)))).sir := rfl
    rw [hsir, hchain]

/-- Witness for C6 amended: the concrete chainless keybox `kbC6`. -/
theorem claim6_witness :
    (buildResultB kbC6).score ≤ 80 ∧ (buildResultB kbC6).strongIntegrityReady = false :=
  claim6_amended kbC6 rfl

/-- C7 counterexample: in the current Strategy A engine the device id
"android_test_device" is NOT flagged as leaked — the device id is checked
against the hexadecimal `LEAK_DB` serial substrings, case-sensitively, and
no registry of "android"/"test" markers is consulted. -/
theorem claim7_cex :
    validateA 0 (Except.ok (some kb7C)) = Except.ok (buildReportA 0 kb7C) ∧
    (buildReportA 0 kb7C).deviceID = "android_test_device" ∧
    (buildReportA 0 kb7C).isLeaked = false := by
  refine ⟨rfl, rfl, ?_⟩
  decide

/-- C7 amended. Only the earlier revision (`part_000`) flags device ids by
the generic markers: there, `isLeaked` is true whenever the lower-cased
device id contains "android" or "test" as a substring (so
"android_test_device" is leaked in that revision); the current
`Validator.tsx` checks the device id against `LEAK_DB` case-sensitively and
does not flag it. -/
theorem claim7_amended (hr : Bool) (d : String)
    (h : strContains (jsLower d) "android" = true ∨
      strContains (jsLower d) "test" = true) :
    isLeaked_v1 hr (some d) = true := by
  unfold isLeaked_v1
  rcases h with h | h <;> simp [h]

/-- Witness for C7 amended: the device id "android_test_device" in the
earlier revision. -/
theorem claim7_witness : isLeaked_v1 false (some "android_test_device") = true :=
  claim7_amended false "android_test_device" (Or.inl (by decide))

/-- C8. For a report over a non-empty chain, `daysRemaining` is the signed
day difference between the end-entity certificate's `notAfter` and the
current instant, with the fallback — when no certificate is classified
END-ENTITY — being the first certificate in the original chain-supplied
order. -/
theorem claim8_days_remaining (now : Int) (kb : KeyboxTree) (c0 : CertDetail)
    (rest : List CertDetail) (h : chainDetails now kb = c0 :: rest) :
    (buildReportA now kb).certificates ≠ [] ∧
    (buildReportA now kb).daysRemaining =
      differenceInDays
        (((c0 :: rest).find? (fun c => c.type == CertType.ENDENTITY)).getD c0).notAfter
        now := by
  constructor
  · have hcert : (buildReportA now kb).certificates = sortByType (chainDetails now kb) := rfl
    rw [hcert, h]
    intro hempty
    have hmem : c0 ∈ sortByType (c0 :: rest) :=
      mem_sortByType.mpr (List.mem_cons_self _ _)
    rw [hempty] at hmem
    exact List.not_mem_nil _ hmem
  · have hdays : (buildReportA now kb).daysRemaining =
        ((findLeaf (chainDetails now kb)).map
          (fun c => differenceInDays c.notAfter now)).getD 0 := rfl
    rw [hdays, h]
    unfold findLeaf
    cases hf : (c0 :: rest).find? (fun c => c.type == CertType.ENDENTITY) with
    | none => simp [hf, Option.orElse]
    | some c => simp [hf, Option.orElse]

/-- Witness for C8: the concrete one-certificate chain of `kb8W`. -/
theorem claim8_witness :
    (buildReportA 0 kb8W).certificates ≠ [] ∧
    (buildReportA 0 kb8W).daysRemaining =
      differenceInDays
        ((([c8].find? (fun c => c.type == CertType.ENDENTITY)).getD c8).notAfter) 0 :=
  claim8_days_remaining 0 kb8W c8 [] (by decide)

/-- C10. A well-formed keybox whose chain normalizes to the empty sequence
still yields a full report: empty certificate list, `daysRemaining` 0 and
`expiresOn` "Unknown". -/
theorem claim10_empty_chain (now : Int) (kb : KeyboxTree)
    (h : certsRaw kb.certChain = []) :
    validateA now (Except.ok (some kb)) = Except.ok (buildReportA now kb) ∧
    (buildReportA now kb).certificates = [] ∧
    (buildReportA now kb).daysRemaining = 0 ∧
    (buildReportA now kb).expiresOn = "Unknown" := by
  have hc : chainDetails now kb = [] := by
    unfold chainDetails
    rw [h]
    rfl
  refine ⟨rfl, ?_, ?_, ?_⟩
  · have hcert : (buildReportA now kb).certificates = sortByType (chainDetails now kb) := rfl
    rw [hcert, hc]
    rfl
  · have hdays : (buildReportA now kb).daysRemaining =
        ((findLeaf (chainDetails now kb)).map
          (fun c => differenceInDays c.notAfter now)).getD 0 := rfl
    rw [hdays, hc]
    rfl
  · have hexp : (buildReportA now kb).expiresOn =
        ((findLeaf (chainDetails now kb)).map
          (fun c => formatDisplayDate c.notAfter)).getD "Unknown" := rfl
    rw [hexp, hc]
    rfl

/-- Witness for C10: the concrete keybox `kb10W` with no chain field. -/
theorem claim10_witness :
    validateA 0 (Except.ok (some kb10W)) = Except.ok (buildReportA 0 kb10W) ∧
    (buildReportA 0 kb10W).certificates = [] ∧
    (buildReportA 0 kb10W).daysRemaining = 0 ∧
    (buildReportA 0 kb10W).expiresOn = "Unknown" :=
  claim10_empty_chain 0 kb10W rfl

end Morpheus
